import Mathlib

/-!
# Verification of the RFM69 radio driver (`RFM69/radio.py`)

Shallow embedding of the driver's protocol logic: the listen-mode timing
calculator, the send/ACK/retry engine and its frame encoder, the
interrupt-driven receive pipeline with its pending-ack table, the mode
state machine, the CSMA polling loops and the power-level setter.

Pure functions of the source become Lean functions; stateful methods
become explicit state-passing functions; a Python exception
(`ZeroDivisionError`) is modelled by an `Option` result (`none` = raised).
Register constants come from the driver's `registers` module, which is not
part of the sources here; where a constant's value is needed it is
modelled from the spec (distinct nonzero register codes, the microsecond
units 64/4100/262000, the 66-byte FIFO ceiling, the payload maximum, the
CSMA threshold and timeout).
-/

namespace RFM69

/-! ## Register and protocol constants

Modelled from the spec: the `registers` module is not under the sources;
the resolution codes are distinct nonzero register byte codes, and the
remaining constants are the values the spec names (66-byte FIFO ceiling,
broadcast address 255, coefficient bound 255). -/

/-- Modelled from the spec: listen RX resolution code for the 64 µs unit
(a distinct nonzero register constant from the missing `registers` module). -/
def RF_LISTEN1_RESOL_RX_64 : Nat := 0x10

/-- Modelled from the spec: listen RX resolution code for the 4100 µs unit. -/
def RF_LISTEN1_RESOL_RX_4100 : Nat := 0x20

/-- Modelled from the spec: listen RX resolution code for the 262000 µs unit. -/
def RF_LISTEN1_RESOL_RX_262000 : Nat := 0x30

/-- Modelled from the spec: listen idle resolution code for the 64 µs unit. -/
def RF_LISTEN1_RESOL_IDLE_64 : Nat := 0x40

/-- Modelled from the spec: listen idle resolution code for the 4100 µs unit. -/
def RF_LISTEN1_RESOL_IDLE_4100 : Nat := 0x80

/-- Modelled from the spec: listen idle resolution code for the 262000 µs unit. -/
def RF_LISTEN1_RESOL_IDLE_262000 : Nat := 0xC0

/-- Broadcast address: the source writes the literal 255 in `broadcast`
and the `registers` module's `RF69_BROADCAST_ADDR` is 255 per the spec. -/
def RF69_BROADCAST_ADDR : Nat := 255

/-! ## Listen-mode timing calculator

Embeds `_getUsForResolution`, `_getCoefForResolution`,
`_chooseResolutionAndCoef` and `listenModeSetDurations`
(`radio.py` lines 590–642). -/

/-- `_getUsForResolution` (radio.py 590–598): microsecond unit of a
resolution register code; unknown codes (including the sentinel 0 that
ends the candidate lists) map to 0. -/
def getUsForResolution (resolution : Nat) : Nat :=
  if resolution = RF_LISTEN1_RESOL_RX_64 ∨ resolution = RF_LISTEN1_RESOL_IDLE_64 then 64
  else if resolution = RF_LISTEN1_RESOL_RX_4100 ∨ resolution = RF_LISTEN1_RESOL_IDLE_4100 then 4100
  else if resolution = RF_LISTEN1_RESOL_RX_262000 ∨ resolution = RF_LISTEN1_RESOL_IDLE_262000 then 262000
  else 0

/-- `_getCoefForResolution` (radio.py 600–606).  `int(duration / resolDuration)`
truncates toward zero, i.e. floor division for the nonnegative microsecond
durations involved; when the next-higher coefficient is strictly closer it
is preferred.  A resolution whose unit is 0 (the sentinel) makes Python
raise `ZeroDivisionError`, modelled as `none`. -/
def getCoefForResolution (resolution duration : Nat) : Option Nat :=
  let resolDuration := getUsForResolution resolution
  if resolDuration = 0 then none
  else
    let result := duration / resolDuration
    if ((duration : Int) - ((result + 1) * resolDuration : Nat)).natAbs
        < ((duration : Int) - (result * resolDuration : Nat)).natAbs then
      some (result + 1)
    else
      some result

/-- `_chooseResolutionAndCoef` (radio.py 611–619): first resolution in the
list whose coefficient is ≤ 255.  Outer `none` models a propagated
`ZeroDivisionError`; inner `none` models the Python `(None, None)` return
reached when the list is exhausted. -/
def chooseResolutionAndCoef : List Nat → Nat → Option (Option (Nat × Nat))
  | [], _ => some none
  | r :: rs, duration =>
    match getCoefForResolution r duration with
    | none => none
    | some coef =>
      if coef ≤ 255 then some (some (r, coef))
      else chooseResolutionAndCoef rs duration

/-- The coefficient `_getCoefForResolution` computes for a resolution code
with a nonzero microsecond unit (for such codes the computation always
yields a value; the default 0 is never used). -/
def coefAt (resolution d : Nat) : Nat :=
  (getCoefForResolution resolution d).getD 0

/-- RX candidate resolution list of `listenModeSetDurations` (radio.py 622),
ending in the sentinel 0. -/
def rxResolutions : List Nat :=
  [RF_LISTEN1_RESOL_RX_64, RF_LISTEN1_RESOL_RX_4100, RF_LISTEN1_RESOL_RX_262000, 0]

/-- Idle candidate resolution list of `listenModeSetDurations` (radio.py 623). -/
def idleResolutions : List Nat :=
  [RF_LISTEN1_RESOL_IDLE_64, RF_LISTEN1_RESOL_IDLE_4100, RF_LISTEN1_RESOL_IDLE_262000, 0]

/-- The listen-timing fields of the driver state mutated by
`listenModeSetDurations`. -/
structure ListenState where
  rxListenResolution : Nat
  rxListenCoef : Nat
  idleListenResolution : Nat
  idleListenCoef : Nat
  listenCycleDurationUs : Nat
deriving Repr, DecidableEq

/-- Python truthiness of the pair test `if (resolOut and coefOut)`
(radio.py 626, 633): the stored branch is taken only when both components
are non-`None` and nonzero. -/
def pairTruthy : Option (Nat × Nat) → Bool
  | some (r, c) => decide (r ≠ 0) && decide (c ≠ 0)
  | none => false

/-- `listenModeSetDurations` (radio.py 621–642) as a state transformer.
Result: outer `none` models a `ZeroDivisionError` escaping the call;
otherwise the new state together with the returned value, where inner
`none` models the `(None, None)` failure return and `some (rx, idle)` the
success return of the represented durations. -/
def listenModeSetDurations (s : ListenState) (rxDuration idleDuration : Nat) :
    Option (ListenState × Option (Nat × Nat)) :=
  match chooseResolutionAndCoef rxResolutions rxDuration with
  | none => none
  | some rxPair =>
    if pairTruthy rxPair then
      match rxPair with
      | none => none
      | some (rxResol, rxCoef) =>
        let s1 := { s with rxListenResolution := rxResol, rxListenCoef := rxCoef }
        match chooseResolutionAndCoef idleResolutions idleDuration with
        | none => none
        | some idlePair =>
          if pairTruthy idlePair then
            match idlePair with
            | none => none
            | some (idleResol, idleCoef) =>
              let s2 := { s1 with idleListenResolution := idleResol,
                                  idleListenCoef := idleCoef }
              let rxOut := getUsForResolution s2.rxListenResolution * s2.rxListenCoef
              let idleOut := getUsForResolution s2.idleListenResolution * s2.idleListenCoef
              let s3 := { s2 with listenCycleDurationUs := rxOut + idleOut }
              some (s3, some (rxOut, idleOut))
          else
            some (s1, none)
    else
      some (s, none)

/-! ## Frame codec and the send/ACK/retry engine

Embeds `_sendFrame` (radio.py 398–428, the frame-building part), `send`
(radio.py 208–243) and `broadcast` (radio.py 197–206).  Timing-dependent
behaviour — whether an acknowledgement from the target lands in the
`acks` table during the wait window of a given attempt — is abstracted
into an oracle `ackDuringWait : Nat → Bool` indexed by the attempt
number. -/

/-- Modelled from the spec: `RF69_MAX_DATA_LEN`, the configured maximum
payload length (the `registers` module is not under the sources); the
spec calls it "a configured maximum" to which longer payloads are
silently truncated on send. -/
def RF69_MAX_DATA_LEN : Nat := 61

/-- The wire frame built by `_sendFrame` (radio.py 407–419): the bytes
`[length, toAddress, senderAddress, controlByte]` followed by the
(truncated) payload, with `length = payload length + 3`. -/
structure Frame where
  length : Nat
  toAddress : Nat
  fromAddress : Nat
  controlByte : Nat
  payload : List Nat
deriving Repr, DecidableEq

/-- Frame construction of `_sendFrame` (radio.py 398–420): truncate the
payload to `RF69_MAX_DATA_LEN`, then set the control byte to 0x80 for an
ack-reply, else 0x40 when an ack is requested, else 0. -/
def sendFrame (address toAddress : Nat) (buff : List Nat)
    (requestACK sendACK : Bool) : Frame :=
  let buff := buff.take RF69_MAX_DATA_LEN
  let ack : Nat := if sendACK then 0x80 else if requestACK then 0x40 else 0
  ⟨buff.length + 3, toAddress, address, ack, buff⟩

/-- The retry loop of `send` (radio.py 230–243), by recursion on the
remaining attempts, collecting the transmitted frames.  Each attempt
calls `self._send(toAddress, buff, attempts>0)` — note the request-ack
argument is `attempts > 0`, where `attempts` is the constant total, not
the remaining count.  Result `none` models Python `None` ("sent, no ack
requested"), `some true`/`some false` the ack/no-ack outcomes. -/
def sendLoop (address toAddress : Nat) (buff : List Nat) (attemptsTotal : Nat)
    (require_ack : Bool) (ackDuringWait : Nat → Bool) :
    Nat → Nat → List Frame × Option Bool
  | 0, _ => ([], some false)
  | remaining + 1, i =>
    let f := sendFrame address toAddress buff (decide (attemptsTotal > 0)) false
    if !require_ack then ([f], none)
    else if ackDuringWait i then ([f], some true)
    else
      let rest := sendLoop address toAddress buff attemptsTotal require_ack
        ackDuringWait remaining (i + 1)
      (f :: rest.1, rest.2)

/-- `send` (radio.py 208–243): keyword defaults `attempts=3`, `require_ack=True`;
`attempts > 1` forces `require_ack` to true before the retry loop runs.
Returns the transmitted frames and the Python return value
(`none` = `None`, `some b` = `b`). -/
def send (address toAddress : Nat) (buff : List Nat) (attempts : Nat)
    (require_ack : Bool) (ackDuringWait : Nat → Bool) : List Frame × Option Bool :=
  let require_ack := if attempts > 1 then true else require_ack
  sendLoop address toAddress buff attempts require_ack ackDuringWait attempts 0

/-- `broadcast` (radio.py 197–206): exactly the call
`send(255, buff, require_ack=False)`, which leaves `attempts` at its
default of 3. -/
def broadcast (address : Nat) (buff : List Nat) (ackDuringWait : Nat → Bool) :
    List Frame × Option Bool :=
  send address RF69_BROADCAST_ADDR buff 3 false ackDuringWait

/-! ## Receive pipeline and pending-ack table

Embeds the body of `_interruptHandler` for a payload-ready frame in RX
mode (radio.py 522–574) and `_ACKReceived` (radio.py 387–391).  The
`acks` Python dict is modelled as an association list with the dict
operations the source uses (`setdefault`, `in`, `pop`), so that the
"at most one entry per sender" invariant is a provable property of the
operations rather than baked into the representation. -/

/-- Python `k in d` on the `acks` dict. -/
def dictContains (d : List (Nat × Nat)) (k : Nat) : Bool :=
  d.any (fun p => p.1 == k)

/-- Python `d.setdefault(k, v)` (radio.py 554): insert `(k, v)` only when
`k` is absent; an existing entry is kept untouched. -/
def dictSetdefault (d : List (Nat × Nat)) (k v : Nat) : List (Nat × Nat) :=
  if dictContains d k then d else d ++ [(k, v)]

/-- Python `d.pop(k, None)` (radio.py 389): remove the entry keyed `k`. -/
def dictPop (d : List (Nat × Nat)) (k : Nat) : List (Nat × Nat) :=
  d.filter (fun p => p.1 != k)

/-- Number of entries keyed `k` in the table. -/
def countKey (d : List (Nat × Nat)) (k : Nat) : Nat :=
  (d.filter (fun p => p.1 == k)).length

/-- `Packet(target, sender, rssi, data)` as appended to `self.packets`
(radio.py 564–566). -/
structure Packet where
  target : Nat
  sender : Nat
  rssi : Int
  data : List Nat
deriving Repr, DecidableEq

/-- The driver state touched by the receive interrupt path. -/
structure RxState where
  promiscuousMode : Bool
  auto_acknowledge : Bool
  address : Nat
  acks : List (Nat × Nat)
  packets : List Packet
deriving Repr, DecidableEq

/-- Outcome of one interrupt-handler invocation. -/
structure IntResult where
  state : RxState
  /-- The frame failed the address filter and was dropped (radio.py 536–540). -/
  ignored : Bool
  /-- An auto-ack reply was triggered (radio.py 569–571). -/
  sentAck : Bool
  /-- `begin_receive` was called to resume RX (radio.py 539 / 574). -/
  resumedReceive : Bool
deriving Repr, DecidableEq

/-- Body of `_interruptHandler` (radio.py 526–574) for a payload-ready
frame received in RX mode: address filter, control-byte classification,
ack bookkeeping via `setdefault`, enqueueing of non-ack-reply frames,
and the auto-ack trigger.  The header fields and payload bytes read from
the FIFO, and the RSSI reading, are inputs. -/
def interruptHandler (s : RxState) (target_id sender_id CTLbyte : Nat)
    (data : List Nat) (rssi : Int) : IntResult :=
  if !(s.promiscuousMode || target_id == s.address || target_id == RF69_BROADCAST_ADDR) then
    ⟨s, true, false, true⟩
  else
    let ack_received := CTLbyte &&& 0x80 != 0
    let ack_requested := CTLbyte &&& 0x40 != 0
    let acks' := if ack_received then dictSetdefault s.acks sender_id 1 else s.acks
    let packets' :=
      if ack_received then s.packets
      else s.packets ++ [⟨target_id, sender_id, rssi, data⟩]
    ⟨{ s with acks := acks', packets := packets' }, false,
      ack_requested && s.auto_acknowledge, true⟩

/-- `_ACKReceived` (radio.py 387–391): report and consume the pending-ack
entry for `fromNodeID`; returns the result together with the updated
table. -/
def ACKReceived (acks : List (Nat × Nat)) (fromNodeID : Nat) :
    Bool × List (Nat × Nat) :=
  if dictContains acks fromNodeID then (true, dictPop acks fromNodeID)
  else (false, acks)

/-! ## Power-level setter

Embeds `set_power_level` (radio.py 177–186).  The only assertion in the
source is `assert type(percent) == int`; there is no range check.  The
Python expression `int(round(31 * (percent / 100)))` rounds the exact
rational `31·percent/100` half-to-even (the float is exact at the only
tie, `percent = 50`). -/

/-- Python 3 `round(num/den)` for `den > 0`: nearest integer, ties to
even (banker's rounding). -/
def pyRound (num den : Nat) : Nat :=
  let q := num / den
  let r := num % den
  if 2 * r < den then q
  else if den < 2 * r then q + 1
  else if q % 2 = 0 then q else q + 1

/-- `set_power_level` (radio.py 177–186): computes
`powerLevel = round(31 * percent / 100)` and the value written to the
PA-level register, `(oldReg & 0xE0) | powerLevel`.  Returns
`(powerLevel, written value)`.  The source performs no range check on
`percent` (only a type assertion), so the function is total on `Nat`. -/
def set_power_level (percent regOld : Nat) : Nat × Nat :=
  let powerLevel := pyRound (31 * percent) 100
  (powerLevel, (regOld &&& 0xE0) ||| powerLevel)

/-! ## Mode state machine

Embeds `_setMode` (radio.py 342–371).  Mode codes and the operating-mode
bit patterns come from the missing `registers` module and are modelled
from the spec as distinct codes / distinct 3-bit-field patterns.  The
initial `self.mode = ""` (an empty string, equal to no mode code) is
modelled as `none`. -/

/-- Modelled from the spec: mode code for Sleep. -/
def RF69_MODE_SLEEP : Nat := 0

/-- Modelled from the spec: mode code for Standby. -/
def RF69_MODE_STANDBY : Nat := 1

/-- Modelled from the spec: mode code for Synthesizer. -/
def RF69_MODE_SYNTH : Nat := 2

/-- Modelled from the spec: mode code for Receive. -/
def RF69_MODE_RX : Nat := 3

/-- Modelled from the spec: mode code for Transmit. -/
def RF69_MODE_TX : Nat := 4

/-- Modelled from the spec: operating-mode register address. -/
def REG_OPMODE : Nat := 0x01

/-- Modelled from the spec: IRQ-flags-1 register address (mode-ready bit). -/
def REG_IRQFLAGS1 : Nat := 0x27

/-- Modelled from the spec: high-power test register 1. -/
def REG_TESTPA1 : Nat := 0x5A

/-- Modelled from the spec: high-power test register 2. -/
def REG_TESTPA2 : Nat := 0x5C

/-- Modelled from the spec: operating-mode field patterns written into
bits 4–2 of the op-mode register (transmitter, receiver, synthesizer,
standby, sleep). -/
def RF_OPMODE_TRANSMITTER : Nat := 0x0C

/-- Modelled from the spec: receiver op-mode field pattern. -/
def RF_OPMODE_RECEIVER : Nat := 0x10

/-- Modelled from the spec: synthesizer op-mode field pattern. -/
def RF_OPMODE_SYNTHESIZER : Nat := 0x08

/-- Modelled from the spec: standby op-mode field pattern. -/
def RF_OPMODE_STANDBY : Nat := 0x04

/-- Modelled from the spec: sleep op-mode field pattern. -/
def RF_OPMODE_SLEEP : Nat := 0x00

/-- One bus transaction issued through `_readReg` / `_writeReg`. -/
inductive BusOp where
  | read (addr : Nat)
  | write (addr : Nat) (value : Nat)
deriving Repr, DecidableEq

/-- The driver state touched by `_setMode`. -/
structure ModeState where
  /-- `self.mode`; `none` models the initial `""`. -/
  mode : Option Nat
  mode_name : String
  isRFM69HW : Bool
deriving Repr, DecidableEq

/-- `_setHighPowerRegs` (radio.py 476–482) as its bus-write trace. -/
def setHighPowerRegs (onOff : Bool) : List BusOp :=
  if onOff then [.write REG_TESTPA1 0x5D, .write REG_TESTPA2 0x7C]
  else [.write REG_TESTPA1 0x55, .write REG_TESTPA2 0x70]

/-- The read-modify-write of the op-mode register performed by every
known-mode branch of `_setMode`: `(read & 0xE3) | bits`. -/
def opmodeRmw (regOld bits : Nat) : List BusOp :=
  [.read REG_OPMODE, .write REG_OPMODE ((regOld &&& 0xE3) ||| bits)]

/-- The mode-ready wait at the end of `_setMode` (radio.py 369–370): the
`while` condition short-circuits, so the IRQ-flags register is polled only
when the previous mode was Sleep; `sleepPolls + 1` reads model however
many polls the environment produced before reporting ready. -/
def modeReadyWait (oldMode : Option Nat) (sleepPolls : Nat) : List BusOp :=
  if oldMode = some RF69_MODE_SLEEP then
    List.replicate (sleepPolls + 1) (.read REG_IRQFLAGS1)
  else []

/-- `_setMode` (radio.py 342–371): no-op when the target equals the
current mode; for the five known modes, a read-modify-write of the
op-mode register (plus the high-power register writes when entering TX or
RX on a high-power module), the mode-ready wait when leaving Sleep, and
the update of the stored mode; for an unknown code, only `mode_name` is
set and the method returns early without touching the bus or the stored
mode.  `regOld` is the value the op-mode read returns; `sleepPolls` the
environment's poll count.  Returns the new state and the bus trace. -/
def setMode (s : ModeState) (newMode : Nat) (regOld sleepPolls : Nat) :
    ModeState × List BusOp :=
  if some newMode = s.mode then (s, [])
  else if newMode = RF69_MODE_TX then
    ({ s with mode := some newMode, mode_name := "TX" },
      opmodeRmw regOld RF_OPMODE_TRANSMITTER
        ++ (if s.isRFM69HW then setHighPowerRegs true else [])
        ++ modeReadyWait s.mode sleepPolls)
  else if newMode = RF69_MODE_RX then
    ({ s with mode := some newMode, mode_name := "RX" },
      opmodeRmw regOld RF_OPMODE_RECEIVER
        ++ (if s.isRFM69HW then setHighPowerRegs false else [])
        ++ modeReadyWait s.mode sleepPolls)
  else if newMode = RF69_MODE_SYNTH then
    ({ s with mode := some newMode, mode_name := "Synth" },
      opmodeRmw regOld RF_OPMODE_SYNTHESIZER ++ modeReadyWait s.mode sleepPolls)
  else if newMode = RF69_MODE_STANDBY then
    ({ s with mode := some newMode, mode_name := "Standby" },
      opmodeRmw regOld RF_OPMODE_STANDBY ++ modeReadyWait s.mode sleepPolls)
  else if newMode = RF69_MODE_SLEEP then
    ({ s with mode := some newMode, mode_name := "Sleep" },
      opmodeRmw regOld RF_OPMODE_SLEEP ++ modeReadyWait s.mode sleepPolls)
  else
    ({ s with mode_name := "Unknown" }, [])

/-- Is a bus operation a write to the op-mode register? -/
def isOpmodeWrite : BusOp → Bool
  | .write addr _ => addr == REG_OPMODE
  | .read _ => false

/-! ## CSMA polling loops

Embeds `_canSend` (radio.py 377–385) and the two CSMA polling loops of
the send path: the loop of `_send` (radio.py 192–193), guarded by the
CSMA timeout, and the loop of `send_ack` (radio.py 333–334), guarded only
by `_canSend`.  The loop bodies (`has_received_packet()`) do not change
any state the guard reads, and `_canSend` changes the mode only on the
iteration where it returns true, so loop exit is fully characterised by
the sequence of guard evaluations over the environment's RSSI readings. -/

/-- Modelled from the spec: `CSMA_LIMIT`, the channel-busy RSSI threshold
in dBm (the `registers` module is not under the sources; the spec's value
is "signal stronger than -100dBm ... assume channel activity" per the
source comment, with the constant at -90 dBm). -/
def CSMA_LIMIT : Int := -90

/-- Modelled from the spec: `RF69_CSMA_LIMIT_S`, the fixed CSMA timeout of
the `_send` loop, in milliseconds here. -/
def RF69_CSMA_LIMIT_MS : Nat := 1000

/-- Decision of `_canSend` (radio.py 377–385) as a function of the
current mode and the RSSI reading: true from Standby (optimistically),
true from RX when the measured RSSI is below the channel-busy threshold,
false otherwise.  The mode is only switched on a true return, so while a
polling loop keeps receiving false the mode argument stays fixed. -/
def canSendB (mode : Nat) (rssi : Int) : Bool :=
  if mode = RF69_MODE_STANDBY then true
  else if mode = RF69_MODE_RX ∧ rssi < CSMA_LIMIT then true
  else false

/-- Guard of the CSMA loop in `_send` (radio.py 192):
`(not self._canSend()) and time.time() - now < RF69_CSMA_LIMIT_S`;
`rssis n` and `elapsedMs n` are the RSSI reading and the elapsed
milliseconds at the n-th guard evaluation. -/
def sendCsmaGuard (mode : Nat) (rssis : Nat → Int) (elapsedMs : Nat → Nat)
    (n : Nat) : Bool :=
  !canSendB mode (rssis n) && decide (elapsedMs n < RF69_CSMA_LIMIT_MS)

/-- Guard of the CSMA loop in `send_ack` (radio.py 333):
`not self._canSend()` — with no timeout term. -/
def sendAckCsmaGuard (mode : Nat) (rssis : Nat → Int) (n : Nat) : Bool :=
  !canSendB mode (rssis n)

/-- The `send_ack` CSMA loop terminates iff its guard ever becomes
false. -/
def sendAckCsmaExits (mode : Nat) (rssis : Nat → Int) : Prop :=
  ∃ n, sendAckCsmaGuard mode rssis n = false

/-! ## Helper lemmas -/

theorem getCoefForResolution_sentinel (d : Nat) : getCoefForResolution 0 d = none := rfl

theorem getCoefForResolution_real (R d : Nat) (h : getUsForResolution R ≠ 0) :
    getCoefForResolution R d = some (coefAt R d) := by
  unfold coefAt
  cases hg : getCoefForResolution R d with
  | some c => rfl
  | none =>
    exfalso
    simp only [getCoefForResolution] at hg
    rw [if_neg h] at hg
    split at hg <;> simp at hg

/-- One step of the resolution search. -/
theorem choose_cons (r : Nat) (rs : List Nat) (d : Nat) :
    chooseResolutionAndCoef (r :: rs) d =
      match getCoefForResolution r d with
      | none => none
      | some coef =>
        if coef ≤ 255 then some (some (r, coef)) else chooseResolutionAndCoef rs d := rfl

/-- The RX search unfolded to the first-fit cascade over the three real
resolutions; the sentinel 0 at the end of the list raises (`none`). -/
theorem choose_rx_eq (d : Nat) :
    chooseResolutionAndCoef rxResolutions d =
      if coefAt RF_LISTEN1_RESOL_RX_64 d ≤ 255 then
        some (some (RF_LISTEN1_RESOL_RX_64, coefAt RF_LISTEN1_RESOL_RX_64 d))
      else if coefAt RF_LISTEN1_RESOL_RX_4100 d ≤ 255 then
        some (some (RF_LISTEN1_RESOL_RX_4100, coefAt RF_LISTEN1_RESOL_RX_4100 d))
      else if coefAt RF_LISTEN1_RESOL_RX_262000 d ≤ 255 then
        some (some (RF_LISTEN1_RESOL_RX_262000, coefAt RF_LISTEN1_RESOL_RX_262000 d))
      else none := by
  have h64 := getCoefForResolution_real RF_LISTEN1_RESOL_RX_64 d (by decide)
  have h41 := getCoefForResolution_real RF_LISTEN1_RESOL_RX_4100 d (by decide)
  have h26 := getCoefForResolution_real RF_LISTEN1_RESOL_RX_262000 d (by decide)
  simp only [rxResolutions, choose_cons, h64, h41, h26, getCoefForResolution_sentinel]

/-- The idle search unfolded likewise. -/
theorem choose_idle_eq (d : Nat) :
    chooseResolutionAndCoef idleResolutions d =
      if coefAt RF_LISTEN1_RESOL_IDLE_64 d ≤ 255 then
        some (some (RF_LISTEN1_RESOL_IDLE_64, coefAt RF_LISTEN1_RESOL_IDLE_64 d))
      else if coefAt RF_LISTEN1_RESOL_IDLE_4100 d ≤ 255 then
        some (some (RF_LISTEN1_RESOL_IDLE_4100, coefAt RF_LISTEN1_RESOL_IDLE_4100 d))
      else if coefAt RF_LISTEN1_RESOL_IDLE_262000 d ≤ 255 then
        some (some (RF_LISTEN1_RESOL_IDLE_262000, coefAt RF_LISTEN1_RESOL_IDLE_262000 d))
      else none := by
  have h64 := getCoefForResolution_real RF_LISTEN1_RESOL_IDLE_64 d (by decide)
  have h41 := getCoefForResolution_real RF_LISTEN1_RESOL_IDLE_4100 d (by decide)
  have h26 := getCoefForResolution_real RF_LISTEN1_RESOL_IDLE_262000 d (by decide)
  simp only [idleResolutions, choose_cons, h64, h41, h26, getCoefForResolution_sentinel]

/-- Durations of at most 32 µs pick coefficient 0 at the finest idle
resolution. -/
theorem choose_idle_small (idle : Nat) (h : idle ≤ 32) :
    chooseResolutionAndCoef idleResolutions idle =
      some (some (RF_LISTEN1_RESOL_IDLE_64, 0)) := by
  interval_cases idle <;> decide

/-- The RX search raises (hits the sentinel) exactly when every real
resolution's coefficient exceeds 255. -/
theorem choose_rx_none_iff (d : Nat) :
    chooseResolutionAndCoef rxResolutions d = none ↔
      255 < coefAt RF_LISTEN1_RESOL_RX_64 d ∧
        255 < coefAt RF_LISTEN1_RESOL_RX_4100 d ∧
          255 < coefAt RF_LISTEN1_RESOL_RX_262000 d := by
  rw [choose_rx_eq]
  by_cases h1 : coefAt RF_LISTEN1_RESOL_RX_64 d ≤ 255 <;>
    by_cases h2 : coefAt RF_LISTEN1_RESOL_RX_4100 d ≤ 255 <;>
      by_cases h3 : coefAt RF_LISTEN1_RESOL_RX_262000 d ≤ 255 <;>
        simp [h1, h2, h3] <;> omega

/-- The idle search raises exactly when every real resolution's
coefficient exceeds 255. -/
theorem choose_idle_none_iff (d : Nat) :
    chooseResolutionAndCoef idleResolutions d = none ↔
      255 < coefAt RF_LISTEN1_RESOL_IDLE_64 d ∧
        255 < coefAt RF_LISTEN1_RESOL_IDLE_4100 d ∧
          255 < coefAt RF_LISTEN1_RESOL_IDLE_262000 d := by
  rw [choose_idle_eq]
  by_cases h1 : coefAt RF_LISTEN1_RESOL_IDLE_64 d ≤ 255 <;>
    by_cases h2 : coefAt RF_LISTEN1_RESOL_IDLE_4100 d ≤ 255 <;>
      by_cases h3 : coefAt RF_LISTEN1_RESOL_IDLE_262000 d ≤ 255 <;>
        simp [h1, h2, h3] <;> omega

/-- The `(None, None)` return of the search itself is unreachable for the
RX candidate list: the sentinel raises first. -/
theorem choose_rx_ne_some_none (d : Nat) :
    chooseResolutionAndCoef rxResolutions d ≠ some none := by
  rw [choose_rx_eq]
  by_cases h1 : coefAt RF_LISTEN1_RESOL_RX_64 d ≤ 255 <;>
    by_cases h2 : coefAt RF_LISTEN1_RESOL_RX_4100 d ≤ 255 <;>
      by_cases h3 : coefAt RF_LISTEN1_RESOL_RX_262000 d ≤ 255 <;>
        simp [h1, h2, h3]

/-- Likewise for the idle candidate list. -/
theorem choose_idle_ne_some_none (d : Nat) :
    chooseResolutionAndCoef idleResolutions d ≠ some none := by
  rw [choose_idle_eq]
  by_cases h1 : coefAt RF_LISTEN1_RESOL_IDLE_64 d ≤ 255 <;>
    by_cases h2 : coefAt RF_LISTEN1_RESOL_IDLE_4100 d ≤ 255 <;>
      by_cases h3 : coefAt RF_LISTEN1_RESOL_IDLE_262000 d ≤ 255 <;>
        simp [h1, h2, h3]

/-- A resolution code returned by the RX search is one of the three real
(nonzero) codes; in particular it is nonzero. -/
theorem choose_rx_code_ne_zero (d rc cc : Nat)
    (h : chooseResolutionAndCoef rxResolutions d = some (some (rc, cc))) : rc ≠ 0 := by
  rw [choose_rx_eq] at h
  repeat' split at h
  all_goals simp_all [RF_LISTEN1_RESOL_RX_64, RF_LISTEN1_RESOL_RX_4100,
    RF_LISTEN1_RESOL_RX_262000]
  all_goals omega

/-- Likewise for the idle search. -/
theorem choose_idle_code_ne_zero (d rc cc : Nat)
    (h : chooseResolutionAndCoef idleResolutions d = some (some (rc, cc))) : rc ≠ 0 := by
  rw [choose_idle_eq] at h
  repeat' split at h
  all_goals simp_all [RF_LISTEN1_RESOL_IDLE_64, RF_LISTEN1_RESOL_IDLE_4100,
    RF_LISTEN1_RESOL_IDLE_262000]
  all_goals omega

/-- `listenModeSetDurations` when the RX search raises. -/
theorem lmsd_rx_raise (s : ListenState) (rx idle : Nat)
    (h : chooseResolutionAndCoef rxResolutions rx = none) :
    listenModeSetDurations s rx idle = none := by
  unfold listenModeSetDurations
  rw [h]

/-- `listenModeSetDurations` when the RX search picks coefficient 0: the
truthiness test fails and the `(None, None)` value is returned with the
state untouched. -/
theorem lmsd_rx_zeroCoef (s : ListenState) (rx idle rc : Nat)
    (h : chooseResolutionAndCoef rxResolutions rx = some (some (rc, 0))) :
    listenModeSetDurations s rx idle = some (s, none) := by
  unfold listenModeSetDurations
  rw [h]
  simp [pairTruthy]

/-- `listenModeSetDurations` when the RX search succeeds with a nonzero
pair but the idle search raises: the RX fields are already stored, then
the exception escapes. -/
theorem lmsd_idle_raise (s : ListenState) (rx idle rc cc : Nat)
    (h1 : chooseResolutionAndCoef rxResolutions rx = some (some (rc, cc)))
    (hrc : rc ≠ 0) (hcc : cc ≠ 0)
    (h2 : chooseResolutionAndCoef idleResolutions idle = none) :
    listenModeSetDurations s rx idle = none := by
  unfold listenModeSetDurations
  rw [h1, h2]
  simp [pairTruthy, hrc, hcc]

/-- `listenModeSetDurations` when the RX search succeeds with a nonzero
pair but the idle search picks coefficient 0: the RX fields are
overwritten and the `(None, None)` value returned. -/
theorem lmsd_idle_zeroCoef (s : ListenState) (rx idle rc cc ic : Nat)
    (h1 : chooseResolutionAndCoef rxResolutions rx = some (some (rc, cc)))
    (hrc : rc ≠ 0) (hcc : cc ≠ 0)
    (h2 : chooseResolutionAndCoef idleResolutions idle = some (some (ic, 0))) :
    listenModeSetDurations s rx idle =
      some ({ s with rxListenResolution := rc, rxListenCoef := cc }, none) := by
  unfold listenModeSetDurations
  rw [h1, h2]
  simp [pairTruthy, hrc, hcc]

/-- `listenModeSetDurations` when both searches succeed with nonzero
pairs: all four fields and the cycle duration are stored and the
represented durations returned. -/
theorem lmsd_success (s : ListenState) (rx idle rc cc ic ci : Nat)
    (h1 : chooseResolutionAndCoef rxResolutions rx = some (some (rc, cc)))
    (hrc : rc ≠ 0) (hcc : cc ≠ 0)
    (h2 : chooseResolutionAndCoef idleResolutions idle = some (some (ic, ci)))
    (hic : ic ≠ 0) (hci : ci ≠ 0) :
    listenModeSetDurations s rx idle =
      some (⟨rc, cc, ic, ci, getUsForResolution rc * cc + getUsForResolution ic * ci⟩,
        some (getUsForResolution rc * cc, getUsForResolution ic * ci)) := by
  unfold listenModeSetDurations
  rw [h1, h2]
  simp [pairTruthy, hrc, hcc, hic, hci]

/-! ## Helper lemmas for the pending-ack table and bus traces -/

theorem countKey_append (d e : List (Nat × Nat)) (k : Nat) :
    countKey (d ++ e) k = countKey d k + countKey e k := by
  simp [countKey, List.filter_append]

theorem countKey_singleton_self (k v : Nat) : countKey [(k, v)] k = 1 := by
  simp [countKey]

theorem countKey_singleton_other (k v k' : Nat) (h : k' ≠ k) :
    countKey [(k, v)] k' = 0 := by
  simp [countKey, List.filter_eq_nil_iff]
  omega

theorem dictContains_iff_countKey (d : List (Nat × Nat)) (k : Nat) :
    dictContains d k = true ↔ 0 < countKey d k := by
  simp [dictContains, countKey, List.any_eq_true, List.length_pos,
    List.filter_eq_nil_iff]

theorem dictSetdefault_present (d : List (Nat × Nat)) (k v : Nat)
    (h : dictContains d k = true) : dictSetdefault d k v = d := by
  simp [dictSetdefault, h]

theorem dictSetdefault_absent (d : List (Nat × Nat)) (k v : Nat)
    (h : dictContains d k = false) : dictSetdefault d k v = d ++ [(k, v)] := by
  simp [dictSetdefault, h]

theorem countKey_dictPop_self (d : List (Nat × Nat)) (k : Nat) :
    countKey (dictPop d k) k = 0 := by
  simp [dictPop, countKey, List.filter_filter, List.filter_eq_nil_iff]

/-- `setdefault` leaves exactly one entry for its key when at most one was
there before. -/
theorem countKey_dictSetdefault_self (d : List (Nat × Nat)) (k v : Nat)
    (h : countKey d k ≤ 1) : countKey (dictSetdefault d k v) k = 1 := by
  by_cases hc : dictContains d k = true
  · rw [dictSetdefault_present d k v hc]
    have := (dictContains_iff_countKey d k).mp hc
    omega
  · rw [dictSetdefault_absent d k v (by simpa using hc), countKey_append,
      countKey_singleton_self]
    have : ¬ 0 < countKey d k := fun hpos =>
      hc ((dictContains_iff_countKey d k).mpr hpos)
    omega

/-- `setdefault` does not change the count of any other key. -/
theorem countKey_dictSetdefault_other (d : List (Nat × Nat)) (k v k' : Nat)
    (h : k' ≠ k) : countKey (dictSetdefault d k v) k' = countKey d k' := by
  by_cases hc : dictContains d k = true
  · rw [dictSetdefault_present d k v hc]
  · rw [dictSetdefault_absent d k v (by simpa using hc), countKey_append,
      countKey_singleton_other k v k' h]
    omega

theorem filter_opmode_replicate_read (n : Nat) (a : Nat) :
    (List.replicate n (BusOp.read a)).filter isOpmodeWrite = [] := by
  induction n with
  | zero => rfl
  | succ k ih => simp [List.replicate_succ, isOpmodeWrite, ih]

theorem filter_opmode_wait (m : Option Nat) (p : Nat) :
    (modeReadyWait m p).filter isOpmodeWrite = [] := by
  unfold modeReadyWait
  split
  · exact filter_opmode_replicate_read _ _
  · rfl

theorem filter_opmode_hp (b : Bool) :
    (setHighPowerRegs b).filter isOpmodeWrite = [] := by
  cases b <;> decide

theorem filter_opmode_rmw (r b : Nat) :
    (opmodeRmw r b).filter isOpmodeWrite = [.write REG_OPMODE ((r &&& 0xE3) ||| b)] := rfl

/-- The early return of `_setMode` when the target equals the stored
mode: no bus traffic, state untouched. -/
theorem setMode_noop (s : ModeState) (newMode regOld sleepPolls : Nat)
    (h : s.mode = some newMode) :
    setMode s newMode regOld sleepPolls = (s, []) := by
  unfold setMode
  rw [if_pos h.symm]

/-! ## Claim theorems -/

/-- Claim C6: for an RX duration of 20500 µs searched against the
candidate resolutions with units {64, 4100, 262000} µs in priority order,
the calculator selects the 4100 µs resolution with coefficient 5 — the
64 µs resolution is skipped because its best coefficient (320) exceeds
255 — and the represented duration 4100 × 5 = 20500 has zero error. -/
theorem claim6_timing_selection_20500 :
    chooseResolutionAndCoef rxResolutions 20500 =
        some (some (RF_LISTEN1_RESOL_RX_4100, 5))
    ∧ getCoefForResolution RF_LISTEN1_RESOL_RX_64 20500 = some 320
    ∧ ¬ (320 ≤ 255)
    ∧ getUsForResolution RF_LISTEN1_RESOL_RX_4100 * 5 = 20500 := by
  refine ⟨by decide, by decide, by decide, by decide⟩

/-- Claim C10: `listenModeSetDurations` is not atomic on failure — when
the RX duration yields a valid (nonzero) resolution/coefficient pair but
the idle duration does not (an idle duration of at most 32 µs picks
coefficient 0 at the finest resolution), the call returns the `(None,
None)` failure value after having already overwritten the stored RX
resolution and coefficient, while the idle resolution, idle coefficient
and stored cycle duration keep their previous values. -/
theorem claim10_set_durations_not_atomic (s : ListenState) (rx idle rc cc : Nat)
    (hch : chooseResolutionAndCoef rxResolutions rx = some (some (rc, cc)))
    (hrc : rc ≠ 0) (hcc : cc ≠ 0) (hidle : idle ≤ 32) :
    listenModeSetDurations s rx idle =
      some ({ s with rxListenResolution := rc, rxListenCoef := cc }, none) :=
  lmsd_idle_zeroCoef s rx idle rc cc RF_LISTEN1_RESOL_IDLE_64 hch hrc hcc
    (choose_idle_small idle hidle)

/-- Witness for C10: with any prior state, RX duration 20500 µs (pair
4100-code/5) and idle duration 0 µs, the call fails yet the RX fields are
overwritten. -/
theorem claim10_set_durations_not_atomic_witness :
    listenModeSetDurations ⟨1, 2, 3, 4, 5⟩ 20500 0 =
      some (⟨RF_LISTEN1_RESOL_RX_4100, 5, 3, 4, 5⟩, none) :=
  claim10_set_durations_not_atomic ⟨1, 2, 3, 4, 5⟩ 20500 0
    RF_LISTEN1_RESOL_RX_4100 5 (by decide) (by decide) (by decide) (by decide)

/-- Counterexample to claim C3 as stated: the RX duration 0 admits the
integer coefficient 0 ≤ 255 at the finest resolution, yet the setter does
not succeed — it returns the `(None, None)` failure value (state
untouched), because the Python truthiness test `if (resolOut and coefOut)`
treats the in-range coefficient 0 as a failure. -/
theorem claim3_counterexample :
    getCoefForResolution RF_LISTEN1_RESOL_RX_64 0 = some 0
    ∧ (0 : Nat) ≤ 255
    ∧ listenModeSetDurations ⟨1, 2, 3, 4, 5⟩ 0 1000000 = some (⟨1, 2, 3, 4, 5⟩, none) := by
  refine ⟨by decide, by decide, by decide⟩

/-- Claim C3 (amended): the listen-duration setter succeeds (storing
resolution and coefficient) exactly when, for both durations, the first
resolution admitting a coefficient ≤ 255 yields a *nonzero* coefficient.
It returns the `(None, None)` failure value exactly when the first
admitting coefficient for the RX duration — or, the RX phase having
succeeded, for the idle duration — is 0.  And when a duration admits no
coefficient ≤ 255 at any of its three real resolutions, the call does not
report the failure value at all: the sentinel resolution 0 at the end of
the candidate list raises `ZeroDivisionError` (the `none` escape). -/
theorem claim3_duration_setter_characterisation (s : ListenState) (rx idle : Nat) :
    (chooseResolutionAndCoef rxResolutions rx = none ↔
      255 < coefAt RF_LISTEN1_RESOL_RX_64 rx ∧
        255 < coefAt RF_LISTEN1_RESOL_RX_4100 rx ∧
          255 < coefAt RF_LISTEN1_RESOL_RX_262000 rx)
    ∧ chooseResolutionAndCoef rxResolutions rx ≠ some none
    ∧ (listenModeSetDurations s rx idle = none ↔
        chooseResolutionAndCoef rxResolutions rx = none ∨
          ((∃ rc cc, chooseResolutionAndCoef rxResolutions rx = some (some (rc, cc))
              ∧ cc ≠ 0)
            ∧ chooseResolutionAndCoef idleResolutions idle = none))
    ∧ ((∃ s2, listenModeSetDurations s rx idle = some (s2, none)) ↔
        (∃ rc, chooseResolutionAndCoef rxResolutions rx = some (some (rc, 0))) ∨
          ((∃ rc cc, chooseResolutionAndCoef rxResolutions rx = some (some (rc, cc))
              ∧ cc ≠ 0)
            ∧ ∃ ic, chooseResolutionAndCoef idleResolutions idle = some (some (ic, 0))))
    ∧ ((∃ s2 p, listenModeSetDurations s rx idle = some (s2, some p)) ↔
        (∃ rc cc, chooseResolutionAndCoef rxResolutions rx = some (some (rc, cc))
            ∧ cc ≠ 0)
          ∧ ∃ ic ci, chooseResolutionAndCoef idleResolutions idle = some (some (ic, ci))
              ∧ ci ≠ 0) := by
  refine ⟨choose_rx_none_iff rx, choose_rx_ne_some_none rx, ?_, ?_, ?_⟩ <;>
  · rcases hrx : chooseResolutionAndCoef rxResolutions rx with _ | rxp
    · simp [lmsd_rx_raise s rx idle hrx, hrx]
    · rcases rxp with _ | ⟨rc, cc⟩
      · exact absurd hrx (choose_rx_ne_some_none rx)
      · have hrc := choose_rx_code_ne_zero rx rc cc hrx
        by_cases hcc : cc = 0
        · subst hcc
          simp [lmsd_rx_zeroCoef s rx idle rc hrx, hrx]
        · rcases hid : chooseResolutionAndCoef idleResolutions idle with _ | idp
          · simp [lmsd_idle_raise s rx idle rc cc hrx hrc hcc hid, hrx, hid, hcc]
            try exact ⟨rc, cc, ⟨rfl, rfl⟩, hcc⟩
          · rcases idp with _ | ⟨ic, ci⟩
            · exact absurd hid (choose_idle_ne_some_none idle)
            · have hic := choose_idle_code_ne_zero idle ic ci hid
              by_cases hci : ci = 0
              · subst hci
                simp [lmsd_idle_zeroCoef s rx idle rc cc ic hrx hrc hcc hid,
                  hrx, hid, hcc]
                try exact ⟨rc, cc, ⟨rfl, rfl⟩, hcc⟩
              · simp [lmsd_success s rx idle rc cc ic ci hrx hrc hcc hid hic hci,
                  hrx, hid, hcc, hci]
                try exact ⟨⟨rc, cc, ⟨rfl, rfl⟩, hcc⟩, ⟨ic, ci, ⟨rfl, rfl⟩, hci⟩⟩

/-- Witness for C3 (amended) at a concrete instance: RX 20500 µs and
idle 1000000 µs succeed, matching the characterisation. -/
theorem claim3_duration_setter_characterisation_witness :
    (∃ s2 p, listenModeSetDurations ⟨1, 2, 3, 4, 5⟩ 20500 1000000 = some (s2, some p)) ↔
      (∃ rc cc, chooseResolutionAndCoef rxResolutions 20500 = some (some (rc, cc))
          ∧ cc ≠ 0)
        ∧ ∃ ic ci, chooseResolutionAndCoef idleResolutions 1000000 = some (some (ic, ci))
            ∧ ci ≠ 0 :=
  (claim3_duration_setter_characterisation ⟨1, 2, 3, 4, 5⟩ 20500 1000000).2.2.2.2

/-- Claim C1: evaluation at the failing input.  `broadcast` passes
`require_ack=False` but leaves `attempts` at its default of 3, and
`send` forces `require_ack = True` whenever `attempts > 1`; so with no
acknowledgement ever arriving, `broadcast` transmits three frames — each
with the ack-request control bit 0x40 set, since `_send` receives
`attempts > 0` as its request-ack argument — and returns `False`.  It
never returns the claimed tri-state `None` after a single attempt
(contradicting the claim and the source's own docstring "sends to node
255 with no ACK request"). -/
theorem claim1_broadcast_failing_input :
    broadcast 1 [] (fun _ => false) =
      ([⟨3, 255, 1, 0x40, []⟩, ⟨3, 255, 1, 0x40, []⟩, ⟨3, 255, 1, 0x40, []⟩], some false)
    ∧ (broadcast 1 [] (fun _ => false)).2 ≠ none
    ∧ (broadcast 1 [] (fun _ => true)).2 = some true := by
  refine ⟨by decide, by decide, by decide⟩

/-- Claim C2: evaluation at the failing input.  `send` passes
`attempts > 0` — true for every call that transmits at all — as the
request-ack argument of `_sendFrame` (radio.py 231), so even a send with
`require_ack=False` and `attempts=1`, whose effective `require_ack` stays
false (the call returns `None`), transmits a frame whose control byte has
the ack-request bit 0x40 set, contradicting the claim that the bit is set
iff the effective `requireAck` is true. -/
theorem claim2_send_failing_input :
    send 1 2 [] 1 false (fun _ => false) = ([⟨3, 2, 1, 0x40, []⟩], none)
    ∧ (0x40 : Nat) &&& 0x40 ≠ 0 := by
  refine ⟨by decide, by decide⟩

/-- Counterexample to claim C4 as stated: the integer percent 200 lies
outside 0–100, yet `set_power_level` does not raise — the source's only
assertion is on the argument's type — and instead computes
`round(31·200/100) = 62` and writes `(reg & 0xE0) | 62`, a value that
does not even fit the five-bit power field. -/
theorem claim4_counterexample :
    set_power_level 200 0 = (62, 62) ∧ ¬ (62 ≤ 31) := by
  refine ⟨by decide, by decide⟩

set_option maxRecDepth 8192 in
/-- Claim C4 (amended): for every integer percent in 0–100,
`set_power_level` stores the power-level code `round(31 × percent / 100)`
and writes it into the low five bits of the PA-level register, leaving
the upper three bits unchanged; an integer percent outside 0–100 is *not*
rejected — the same formula is computed and written regardless (only a
non-integer argument fails the source's type assertion). -/
theorem claim4_power_level (percent regOld : Nat)
    (hp : percent ≤ 100) (hr : regOld < 256) :
    (set_power_level percent regOld).1 = pyRound (31 * percent) 100
    ∧ (set_power_level percent regOld).2 &&& 0x1F = pyRound (31 * percent) 100
    ∧ (set_power_level percent regOld).2 &&& 0xE0 = regOld &&& 0xE0 := by
  have hmask : ∀ a < 256, ∀ c < 32,
      ((a &&& 0xE0) ||| c) &&& 0x1F = c ∧ ((a &&& 0xE0) ||| c) &&& 0xE0 = a &&& 0xE0 := by
    decide
  have hbound : ∀ p < 101, pyRound (31 * p) 100 ≤ 31 := by decide
  have hpl : pyRound (31 * percent) 100 ≤ 31 := hbound percent (by omega)
  exact ⟨rfl, (hmask regOld hr _ (by omega)).1, (hmask regOld hr _ (by omega)).2⟩

/-- Witness for C4 (amended) at percent 70, prior register value 0xFF. -/
theorem claim4_power_level_witness :
    (set_power_level 70 0xFF).2 &&& 0x1F = pyRound (31 * 70) 100
    ∧ (set_power_level 70 0xFF).2 &&& 0xE0 = 0xFF &&& 0xE0 :=
  ⟨(claim4_power_level 70 0xFF (by decide) (by decide)).2.1,
    (claim4_power_level 70 0xFF (by decide) (by decide)).2.2⟩

/-- Counterexample to claim C5 as stated: the CSMA polling loop of
`send_ack` (radio.py 333) has no timeout term in its guard; if the radio
stays in RX mode and every RSSI reading is −80 dBm (above the −90 dBm
busy threshold, so `_canSend` keeps returning false), the guard never
becomes false and the loop never terminates — there is no "fixed CSMA
timeout" after which this transmission proceeds. -/
theorem claim5_counterexample :
    ¬ sendAckCsmaExits RF69_MODE_RX (fun _ => -80) := by
  rintro ⟨n, h⟩
  simp [sendAckCsmaGuard, canSendB, CSMA_LIMIT, RF69_MODE_RX, RF69_MODE_STANDBY] at h

/-- Claim C5 (amended): the CSMA polling loop of the ordinary send path
(`_send`) is bounded — its guard carries the fixed CSMA timeout, so as
soon as the elapsed time reaches the limit the guard is false and the
loop has exited by then, after which `_sendFrame` is called
unconditionally.  The ack-reply send path (`send_ack`) however polls with
no timeout: if the channel never reports clear its loop never exits. -/
theorem claim5_csma_loops (mode : Nat) (rssis : Nat → Int) (elapsedMs : Nat → Nat)
    (n : Nat) (h : RF69_CSMA_LIMIT_MS ≤ elapsedMs n) :
    (∃ m, m ≤ n ∧ sendCsmaGuard mode rssis elapsedMs m = false)
    ∧ ∀ rssis2 : Nat → Int, (∀ k, canSendB mode (rssis2 k) = false) →
        ¬ sendAckCsmaExits mode rssis2 := by
  constructor
  · refine ⟨n, le_refl n, ?_⟩
    have hnl : ¬ (elapsedMs n < RF69_CSMA_LIMIT_MS) := not_lt.mpr h
    simp [sendCsmaGuard, hnl]
  · rintro rssis2 hbusy ⟨k, hk⟩
    simp [sendAckCsmaGuard, hbusy k] at hk

/-- Witness for C5 (amended): with the timeout reached at the very first
guard evaluation, the `_send` loop has exited by iteration 0. -/
theorem claim5_csma_loops_witness :
    ∃ m, m ≤ 0 ∧ sendCsmaGuard RF69_MODE_RX (fun _ => 0) (fun _ => 1000) m = false :=
  (claim5_csma_loops RF69_MODE_RX (fun _ => 0) (fun _ => 1000) 0 (by decide)).1

/-- Claim C7: the pending-ack table holds at most one presence entry per
sender at all times — the interrupt handler preserves the at-most-one
invariant; an entry's count changes only when an accepted ack-reply
(control bit 0x80) frame from that very sender is processed; an accepted
ack-reply from a sender leaves exactly one entry for it, whether or not
one was already pending (a second ack-reply before consumption does not
queue a second entry); ack-reply frames are never appended to the receive
queue while accepted non-ack-reply frames are; and the waiting send's
check (`_ACKReceived`) consumes the entry and returns success exactly
when the entry is present, leaving the table unchanged when absent. -/
theorem claim7_pending_ack_invariants :
    (∀ (s : RxState) (t snd ctl : Nat) (data : List Nat) (rssi : Int),
      ((∀ k, countKey s.acks k ≤ 1) →
        ∀ k, countKey (interruptHandler s t snd ctl data rssi).state.acks k ≤ 1)
      ∧ (∀ k, countKey (interruptHandler s t snd ctl data rssi).state.acks k
            ≠ countKey s.acks k →
          (interruptHandler s t snd ctl data rssi).ignored = false
            ∧ ctl &&& 0x80 ≠ 0 ∧ k = snd)
      ∧ ((interruptHandler s t snd ctl data rssi).ignored = false →
          ctl &&& 0x80 ≠ 0 → (∀ k, countKey s.acks k ≤ 1) →
          countKey (interruptHandler s t snd ctl data rssi).state.acks snd = 1)
      ∧ ((interruptHandler s t snd ctl data rssi).ignored = false →
          (ctl &&& 0x80 ≠ 0 →
            (interruptHandler s t snd ctl data rssi).state.packets = s.packets)
          ∧ (ctl &&& 0x80 = 0 →
            (interruptHandler s t snd ctl data rssi).state.packets
              = s.packets ++ [⟨t, snd, rssi, data⟩])))
    ∧ (∀ (acks : List (Nat × Nat)) (fromId : Nat),
        (dictContains acks fromId = true →
          (ACKReceived acks fromId).1 = true
            ∧ countKey (ACKReceived acks fromId).2 fromId = 0)
        ∧ (dictContains acks fromId = false →
            ACKReceived acks fromId = (false, acks))) := by
  constructor
  · intro s t snd ctl data rssi
    unfold interruptHandler
    by_cases hf : (s.promiscuousMode || t == s.address || t == RF69_BROADCAST_ADDR) = true
    · by_cases hack : ctl &&& 0x80 = 0
      · simp [hf, hack]
      · have hb : (ctl &&& 0x80 != 0) = true := by simpa [bne_iff_ne] using hack
        refine ⟨?_, ?_, ?_, ?_⟩
        · intro hinv k
          simp [hf, hb]
          by_cases hk : k = snd
          · subst hk
            rw [countKey_dictSetdefault_self s.acks k 1 (hinv k)]
          · rw [countKey_dictSetdefault_other s.acks snd 1 k hk]
            exact hinv k
        · intro k hne
          simp [hf, hb] at hne ⊢
          by_cases hk : k = snd
          · exact ⟨hack, hk⟩
          · exact absurd (countKey_dictSetdefault_other s.acks snd 1 k hk) hne
        · intro _ _ hinv
          simp [hf, hb]
          exact countKey_dictSetdefault_self s.acks snd 1 (hinv snd)
        · intro _
          refine ⟨fun _ => ?_, fun hz => absurd hz hack⟩
          simp [hf, hb]
    · simp only [Bool.not_eq_true] at hf
      simp [hf]
  · intro acks fromId
    constructor
    · intro hc
      unfold ACKReceived
      rw [if_pos hc]
      exact ⟨rfl, countKey_dictPop_self acks fromId⟩
    · intro hc
      unfold ACKReceived
      rw [if_neg (by simp [hc])]

/-- Witness for C7 at a concrete table and frame: an ack-reply (control
byte 0x80) from sender 5 arriving twice at node 7 leaves exactly one
entry, and the consuming check succeeds once and empties the table. -/
theorem claim7_pending_ack_invariants_witness :
    countKey (interruptHandler ⟨false, true, 7, [(5, 1)], []⟩ 7 5 0x80 [] 0).state.acks 5 = 1
    ∧ (ACKReceived [(5, 1)] 5).1 = true
    ∧ countKey (ACKReceived [(5, 1)] 5).2 5 = 0 :=
  ⟨(claim7_pending_ack_invariants.1 ⟨false, true, 7, [(5, 1)], []⟩ 7 5 0x80 [] 0).2.2.1
      (by decide) (by decide)
      (fun k => by by_cases h : (5 : Nat) = k <;> simp [countKey, h]),
    (claim7_pending_ack_invariants.2 [(5, 1)] 5).1 (by decide) |>.1,
    (claim7_pending_ack_invariants.2 [(5, 1)] 5).1 (by decide) |>.2⟩

/-- Claim C8: the receive interrupt handler accepts a frame exactly when
promiscuous mode is on, or the target address equals the driver's own
address, or the target is the broadcast address 255; in every other case
the frame is discarded silently — the state (queue and ack table) is left
untouched, no auto-ack is triggered, no error is raised — and receive
mode is resumed (as it is after processing an accepted frame). -/
theorem claim8_address_filter (s : RxState) (t snd ctl : Nat) (data : List Nat)
    (rssi : Int) :
    (interruptHandler s t snd ctl data rssi).ignored
      = !(s.promiscuousMode || t == s.address || t == RF69_BROADCAST_ADDR)
    ∧ ((interruptHandler s t snd ctl data rssi).ignored = true →
        (interruptHandler s t snd ctl data rssi).state = s
        ∧ (interruptHandler s t snd ctl data rssi).sentAck = false)
    ∧ (interruptHandler s t snd ctl data rssi).resumedReceive = true := by
  unfold interruptHandler
  by_cases hf : (s.promiscuousMode || t == s.address || t == RF69_BROADCAST_ADDR) = true
  · simp [hf]
  · simp only [Bool.not_eq_true] at hf
    simp [hf]

/-- Witness for C8, matching the spec's example: a frame addressed to
node 9 is discarded (state untouched) by a driver configured as node 7
with promiscuous mode off, and is not ignored when promiscuous mode is
on. -/
theorem claim8_address_filter_witness :
    (interruptHandler ⟨false, true, 7, [], []⟩ 9 3 0 [] 0).state = ⟨false, true, 7, [], []⟩
    ∧ (interruptHandler ⟨true, true, 7, [], []⟩ 9 3 0 [] 0).ignored = false :=
  ⟨((claim8_address_filter ⟨false, true, 7, [], []⟩ 9 3 0 [] 0).2.1 (by decide)).1,
    by simpa using (claim8_address_filter ⟨true, true, 7, [], []⟩ 9 3 0 [] 0).1⟩

/-- Claim C9: `_setMode` is idempotent with respect to bus traffic — for
any valid target mode different from the current one, the first call
performs exactly one write to the operating-mode register, records the
new mode, and the second call with the same target is a no-op: it issues
no bus operation at all (no register read or write) and leaves the whole
stored state, in particular the mode, unchanged. -/
theorem claim9_setMode_idempotent (s : ModeState)
    (newMode regOld sleepPolls regOld2 sleepPolls2 : Nat)
    (hv : newMode = RF69_MODE_SLEEP ∨ newMode = RF69_MODE_STANDBY ∨
      newMode = RF69_MODE_SYNTH ∨ newMode = RF69_MODE_RX ∨ newMode = RF69_MODE_TX)
    (hne : some newMode ≠ s.mode) :
    ((setMode s newMode regOld sleepPolls).2.filter isOpmodeWrite).length = 1
    ∧ (setMode s newMode regOld sleepPolls).1.mode = some newMode
    ∧ setMode (setMode s newMode regOld sleepPolls).1 newMode regOld2 sleepPolls2
        = ((setMode s newMode regOld sleepPolls).1, []) := by
  have hstep : (setMode s newMode regOld sleepPolls).1.mode = some newMode ∧
      ((setMode s newMode regOld sleepPolls).2.filter isOpmodeWrite).length = 1 := by
    rcases hv with h | h | h | h | h <;> subst h <;>
      unfold setMode <;> rw [if_neg hne] <;>
        simp [RF69_MODE_SLEEP, RF69_MODE_STANDBY, RF69_MODE_SYNTH, RF69_MODE_RX,
          RF69_MODE_TX, List.filter_append, filter_opmode_wait, filter_opmode_hp,
          filter_opmode_rmw, isOpmodeWrite, apply_ite (List.filter isOpmodeWrite)]
  exact ⟨hstep.2, hstep.1, setMode_noop _ _ regOld2 sleepPolls2 hstep.1⟩

/-- Witness for C9: from the fresh state (mode `""`), entering RX writes
the op-mode register once; repeating the call is a pure no-op. -/
theorem claim9_setMode_idempotent_witness :
    ((setMode ⟨none, "", true⟩ RF69_MODE_RX 0 0).2.filter isOpmodeWrite).length = 1
    ∧ setMode (setMode ⟨none, "", true⟩ RF69_MODE_RX 0 0).1 RF69_MODE_RX 9 9
        = ((setMode ⟨none, "", true⟩ RF69_MODE_RX 0 0).1, []) :=
  ⟨(claim9_setMode_idempotent ⟨none, "", true⟩ RF69_MODE_RX 0 0 9 9
      (Or.inr (Or.inr (Or.inr (Or.inl rfl)))) (by simp)).1,
    (claim9_setMode_idempotent ⟨none, "", true⟩ RF69_MODE_RX 0 0 9 9
      (Or.inr (Or.inr (Or.inr (Or.inl rfl)))) (by simp)).2.2⟩

end RFM69
